import Mathlib

/-!
Verification of the Contact Query & Celebration Engine of the
`goit-pythonweb-hw-10` repository (`src/repository/contacts.py`,
`src/schemas/pagination.py`, `src/config/app_config.py`).

Dates are modelled as proleptic-Gregorian calendar dates with executable
conversions to and from day numbers (days since 1970-01-01), mirroring
Python's `datetime.date` arithmetic.  SQL `ORDER BY` and Python's stable
`list.sort` are both modelled with `List.insertionSort`, which is stable;
ties not covered by the SQL sort key keep the store's row order.
`ILIKE` is modelled by a pattern matcher with `%`/`_` wildcards and
case-insensitive literal comparison, as in PostgreSQL.
-/

/-- A calendar date, as Python's `datetime.date`: year, month (1-12), day (1-31). -/
structure PyDate where
  year : Int
  month : Nat
  day : Nat
deriving DecidableEq, Repr

/-- Leap-year test, as Python's `calendar.isleap`. -/
def isLeap (y : Int) : Bool :=
  y % 4 == 0 && (!(y % 100 == 0) || y % 400 == 0)

/-- Days since 1970-01-01 of a proleptic-Gregorian date (Hinnant's civil-days algorithm,
written with floor division, which is what `Int./` performs for positive divisors). -/
def daysFromCivil (d : PyDate) : Int :=
  let y : Int := if d.month ≤ 2 then d.year - 1 else d.year
  let era : Int := y.fdiv 400
  let yoe : Int := y - era * 400
  let mp : Int := (Int.ofNat d.month + 9) % 12
  let doy : Int := (153 * mp + 2) / 5 + Int.ofNat d.day - 1
  let doe : Int := yoe * 365 + yoe / 4 - yoe / 100 + doy
  era * 146097 + doe - 719468

/-- Date from days since 1970-01-01 (inverse civil-days algorithm). -/
def civilFromDays (z : Int) : PyDate :=
  let z' : Int := z + 719468
  let era : Int := z'.fdiv 146097
  let doe : Int := z' - era * 146097
  let yoe : Int := (doe - doe / 1460 + doe / 36524 - doe / 146096) / 365
  let y : Int := yoe + era * 400
  let doy : Int := doe - (365 * yoe + yoe / 4 - yoe / 100)
  let mp : Int := (5 * doy + 2) / 153
  let d : Int := doy - (153 * mp + 2) / 5 + 1
  let m : Int := if mp < 10 then mp + 3 else mp - 9
  ⟨if m ≤ 2 then y + 1 else y, m.toNat, d.toNat⟩

/-- `d + timedelta(days := n)`. -/
def addDays (d : PyDate) (n : Int) : PyDate :=
  civilFromDays (daysFromCivil d + n)

/-- Python's `date.weekday()`: Monday = 0, ..., Saturday = 5, Sunday = 6. -/
def weekday (d : PyDate) : Int :=
  (daysFromCivil d + 3) % 7

/-- ASCII lower-casing of one character (`str.lower` / SQL `lower` on ASCII data). -/
def lchar (c : Char) : Char := c.toLower

/-- The lower-cased character list of a string (`lower(s)` as a comparison key). -/
def lowerL (s : String) : List Char := s.data.map lchar

/-- SQL `LIKE`-style pattern matching with case-insensitive literals (`ILIKE`):
`%` matches any sequence, `_` any single character. -/
def likeMatch : List Char → List Char → Bool
  | [], t => t.isEmpty
  | p :: ps, t =>
    if p = '%' then t.tails.any fun t2 => likeMatch ps t2
    else if p = '_' then
      match t with
      | [] => false
      | _ :: ts => likeMatch ps ts
    else
      match t with
      | [] => false
      | c :: ts => decide (lchar p = lchar c) && likeMatch ps ts

/-- `column.ilike(pattern)` on concrete strings. -/
def ilike (pattern value : String) : Bool :=
  likeMatch pattern.data value.data

/-- A contact row (`src/database/models.py`).  The live ORM model file
`src/database/models/contact.py` is absent from the sources; the legacy model has no
owner column.  Modelled from the spec: `owner_id` identifies the owning user (§3). -/
structure Contact where
  id : Nat
  owner_id : Nat
  first_name : String
  last_name : String
  email : String
  phone_number : String
  birthdate : PyDate
  info : String
deriving DecidableEq, Repr

/-- A contact together with its computed `celebration_date`
(the dict built by `get_contacts_upcoming_birthdays`). -/
structure CelebrationRecord where
  contact : Contact
  celebration_date : PyDate
deriving DecidableEq, Repr

/-- Chronological comparison key of a date (dates compare lexicographically
by year, month, day). -/
def dateKey (d : PyDate) : Lex (Int × Lex (Nat × Nat)) :=
  toLex (d.year, toLex (d.month, d.day))

/-- Sort key of `get_all_contacts`:
`ORDER BY lower(first_name), lower(last_name), birthdate`. -/
def keyGac (c : Contact) : Lex (List Char × Lex (List Char × Lex (Int × Lex (Nat × Nat)))) :=
  toLex (lowerL c.first_name, toLex (lowerL c.last_name, dateKey c.birthdate))

/-- Sort key of the same-month SQL query in `get_contacts_upcoming_birthdays`:
`ORDER BY birthdate, lower(first_name), lower(last_name)`. -/
def keyUb (c : Contact) : Lex (Lex (Int × Lex (Nat × Nat)) × Lex (List Char × List Char)) :=
  toLex (dateKey c.birthdate, toLex (lowerL c.first_name, lowerL c.last_name))

/-- Python sort key of the final in-memory sort:
`(celebration_date, birthdate, first_name.lower(), last_name.lower())`. -/
def keyCeleb (r : CelebrationRecord) :
    Lex (Lex (Int × Lex (Nat × Nat)) ×
      Lex (Lex (Int × Lex (Nat × Nat)) × Lex (List Char × List Char))) :=
  toLex (dateKey r.celebration_date,
    toLex (dateKey r.contact.birthdate,
      toLex (lowerL r.contact.first_name, lowerL r.contact.last_name)))

/-- The ordering key claimed by the spec for `listContacts`:
`lower(first_name), lower(last_name), birthdate`, then `id` as a final tiebreak. -/
def keyGacId (c : Contact) :
    Lex (List Char × Lex (List Char × Lex (Lex (Int × Lex (Nat × Nat)) × Nat))) :=
  toLex (lowerL c.first_name, toLex (lowerL c.last_name, toLex (dateKey c.birthdate, c.id)))

/-- The `get_all_contacts` row order. -/
def gacR (a b : Contact) : Prop := keyGac a ≤ keyGac b

/-- The same-month upcoming-birthdays SQL row order. -/
def ubR (a b : Contact) : Prop := keyUb a ≤ keyUb b

/-- The final Python sort order of celebration records. -/
def celebR (a b : CelebrationRecord) : Prop := keyCeleb a ≤ keyCeleb b

instance : DecidableRel gacR :=
  fun a b => inferInstanceAs (Decidable (keyGac a ≤ keyGac b))

instance : DecidableRel ubR :=
  fun a b => inferInstanceAs (Decidable (keyUb a ≤ keyUb b))

instance : DecidableRel celebR :=
  fun a b => inferInstanceAs (Decidable (keyCeleb a ≤ keyCeleb b))

instance : IsTrans Contact gacR := ⟨fun _ _ _ => le_trans⟩

instance : IsTotal Contact gacR := ⟨fun a b => le_total (keyGac a) (keyGac b)⟩

/-- One optional filter, as applied by `get_all_contacts`:
`if field: stmt = stmt.where(Column.ilike(f"%field%"))` — a `None` or empty
string is falsy and adds no `WHERE` clause. -/
def fieldLike (filt : Option String) (value : String) : Bool :=
  match filt with
  | none => true
  | some s => if s.data = [] then true else ilike ("%" ++ s ++ "%") value

/-- The conjunction of the three optional `WHERE` clauses of `get_all_contacts`. -/
def contactFilterOk (fn ln em : Option String) (c : Contact) : Bool :=
  fieldLike fn c.first_name && fieldLike ln c.last_name && fieldLike em c.email

/-- `get_all_contacts` (`src/repository/contacts.py`): optional case-insensitive
partial-match filters, `ORDER BY lower(first_name), lower(last_name), birthdate`,
then `OFFSET skip LIMIT limit`.  The store is the contacts table in row order. -/
def get_all_contacts (skip limit : Nat) (store : List Contact)
    (first_name last_name email : Option String) : List Contact :=
  (((store.filter (contactFilterOk first_name last_name email)).insertionSort gacR).drop
    skip).take limit

/-- `app_config.UPCOMING_BIRTHDAYS_PERIOD_DAYS` (`src/config/app_config.py`). -/
def UPCOMING_BIRTHDAYS_PERIOD_DAYS : Int := 7

/-- `app_config.DO_MOVE_CELEBRATION_FEB_29_TO_FEB_28` (`src/config/app_config.py`). -/
def DO_MOVE_CELEBRATION_FEB_29_TO_FEB_28 : Bool := true

/-- `upcoming_days or app_config.UPCOMING_BIRTHDAYS_PERIOD_DAYS`:
Python `or` substitutes the default for `None` and for the falsy int `0`. -/
def resolveUpcomingDays (upcoming_days : Option Int) : Int :=
  match upcoming_days with
  | some n => if n = 0 then UPCOMING_BIRTHDAYS_PERIOD_DAYS else n
  | none => UPCOMING_BIRTHDAYS_PERIOD_DAYS

/-- `move_feb29_to_feb_28 or app_config.DO_MOVE_CELEBRATION_FEB_29_TO_FEB_28`:
Python `or` substitutes the default for `None` and for `False`. -/
def resolveMoveFeb29 (m : Option Bool) : Bool :=
  match m with
  | some b => if b then b else DO_MOVE_CELEBRATION_FEB_29_TO_FEB_28
  | none => DO_MOVE_CELEBRATION_FEB_29_TO_FEB_28

/-- `start_date = today if today is not None else date.today()`; the system clock
is passed as an explicit extra input. -/
def resolvedStart (today : Option PyDate) (systemToday : PyDate) : PyDate :=
  today.getD systemToday

/-- Modelled from the spec: step 3 of §4.3 — a candidate celebration date falling
on Saturday or Sunday is shifted forward to the next Monday (the function itself,
`calc_celebration_date` in `src/utils/date_helpers.py`, is absent from the sources). -/
def weekendShift (d : PyDate) : PyDate :=
  if weekday d = 5 then addDays d 2
  else if weekday d = 6 then addDays d 1
  else d

/-- Modelled from the spec: steps 1-2 of §4.3 — the candidate date is the birthdate's
month/day in `referenceYear`, except a Feb-29 birthdate in a non-leap reference year
becomes Feb 28 (policy true) or Mar 1 (policy false). -/
def celebrationCandidate (birthdate : PyDate) (referenceYear : Int)
    (moveFeb29ToFeb28 : Bool) : PyDate :=
  if birthdate.month = 2 ∧ birthdate.day = 29 ∧ isLeap referenceYear = false then
    if moveFeb29ToFeb28 then ⟨referenceYear, 2, 28⟩ else ⟨referenceYear, 3, 1⟩
  else ⟨referenceYear, birthdate.month, birthdate.day⟩

/-- Modelled from the spec: `celebrationDate(birthdate, referenceYear, moveFeb29ToFeb28)`
of §4.3 (`calc_celebration_date` in the absent `src/utils/date_helpers.py`). -/
def calc_celebration_date (birthdate : PyDate) (referenceYear : Int)
    (moveFeb29ToFeb28 : Bool) : PyDate :=
  weekendShift (celebrationCandidate birthdate referenceYear moveFeb29ToFeb28)

/-- The SQL query of `get_contacts_upcoming_birthdays`: a same-month window selects
birthdates of that month with day between the endpoints, ordered by
`(birthdate, lower(first_name), lower(last_name))` with `OFFSET`/`LIMIT`; a window
wrapping into the next month selects the union of the two month buckets, with no
ordering (row order kept) and no `OFFSET`/`LIMIT`. -/
def gcubContacts (skip limit : Nat) (store : List Contact)
    (start_date end_date : PyDate) : List Contact :=
  if end_date.month = start_date.month then
    (((store.filter fun c => decide (c.birthdate.month = start_date.month ∧
        start_date.day ≤ c.birthdate.day ∧ c.birthdate.day ≤ end_date.day)).insertionSort
      ubR).drop skip).take limit
  else
    store.filter fun c => decide ((c.birthdate.month = start_date.month ∧
      start_date.day ≤ c.birthdate.day) ∨
      (c.birthdate.month = end_date.month ∧ c.birthdate.day ≤ end_date.day))

/-- `get_contacts_upcoming_birthdays` (`src/repository/contacts.py`): resolve the
window length and Feb-29 policy through Python `or`, query the window's candidates,
attach `celebration_date` computed with `start_date.year`, and stably sort by
`(celebration_date, birthdate, lower(first_name), lower(last_name))`. -/
def get_contacts_upcoming_birthdays (skip limit : Nat) (store : List Contact)
    (today : Option PyDate) (systemToday : PyDate)
    (upcoming_days : Option Int) (move_feb29_to_feb_28 : Option Bool) :
    List CelebrationRecord :=
  ((gcubContacts skip limit store (resolvedStart today systemToday)
      (addDays (resolvedStart today systemToday) (resolveUpcomingDays upcoming_days))).map
    fun c =>
      ⟨c, calc_celebration_date c.birthdate (resolvedStart today systemToday).year
        (resolveMoveFeb29 move_feb29_to_feb_28)⟩).insertionSort celebR

/-- The window-membership predicate of the engine's SQL `WHERE` clauses (spec §4.4
step 2): the birthdate's (month, day) lies in the inclusive range
`[start, end]`, split into two month buckets when the window wraps months. -/
def inUpcomingWindow (s e bd : PyDate) : Prop :=
  (e.month = s.month ∧ bd.month = s.month ∧ s.day ≤ bd.day ∧ bd.day ≤ e.day) ∨
  (e.month ≠ s.month ∧
    ((bd.month = s.month ∧ s.day ≤ bd.day) ∨ (bd.month = e.month ∧ bd.day ≤ e.day)))

/-- `PaginationFilterSchema` (`src/schemas/pagination.py`): validated pagination
parameters. -/
structure PaginationFilterSchema where
  skip : Int
  limit : Int
deriving DecidableEq, Repr

/-- The distinguishable validation failure raised by the schema's field
constraints (pydantic rejects the request with a validation error; no query runs). -/
inductive PaginationValidationError where
  | skipOutOfRange
  | limitOutOfRange
deriving DecidableEq, Repr

/-- Validation of `PaginationFilterSchema(skip=..., limit=...)`:
`skip` must satisfy `ge=0`, `limit` must satisfy `ge=1, le=1000`; in-range
values are stored unchanged. -/
def validate_pagination (skip limit : Int) :
    Except PaginationValidationError PaginationFilterSchema :=
  if skip < 0 then .error .skipOutOfRange
  else if limit < 1 then .error .limitOutOfRange
  else if limit > 1000 then .error .limitOutOfRange
  else .ok ⟨skip, limit⟩

/-- The spec-side matching relation of one filter field: the field value contains
the filter string, ignoring case (substring containment). -/
def specContains (needle hay : String) : Prop :=
  ∃ p q, hay.data.map lchar = p ++ needle.data.map lchar ++ q

/-- The spec-side constraint of one optional filter field: absent or empty means
no constraint, otherwise case-insensitive substring containment. -/
def specFieldOk : Option String → String → Prop
  | none, _ => True
  | some s, v => if s.data = [] then True else specContains s v

/-- A pattern-literal string: no SQL wildcard characters. -/
def wildcardFreeL (s : List Char) : Prop := '%' ∉ s ∧ '_' ∉ s

/-- An optional filter string without SQL wildcard characters. -/
def optWildcardFree : Option String → Prop
  | none => True
  | some s => wildcardFreeL s.data

instance (s e bd : PyDate) : Decidable (inUpcomingWindow s e bd) := by
  unfold inUpcomingWindow
  infer_instance

instance (s : List Char) : Decidable (wildcardFreeL s) := by
  unfold wildcardFreeL
  infer_instance

instance : (o : Option String) → Decidable (optWildcardFree o)
  | none => .isTrue trivial
  | some s => inferInstanceAs (Decidable (wildcardFreeL s.data))

/-! Sample rows used in the concrete evaluations below. -/

/-- A contact of owner 1 with a mid-June birthdate. -/
def annOwner1 : Contact := ⟨1, 1, "Ann", "Lee", "ann@example.com", "+101", ⟨1990, 6, 12⟩, ""⟩

/-- A contact of owner 2 with a mid-June birthdate. -/
def bobOwner2 : Contact := ⟨2, 2, "Bob", "Ray", "bob@example.com", "+102", ⟨1991, 6, 13⟩, ""⟩

/-- A contact with a late-December birthdate. -/
def decContact1 : Contact := ⟨1, 1, "Ann", "Lee", "ann@example.com", "+101", ⟨1990, 12, 29⟩, ""⟩

/-- A second contact with a late-December birthdate. -/
def decContact2 : Contact := ⟨2, 1, "Bob", "Ray", "bob@example.com", "+102", ⟨1991, 12, 30⟩, ""⟩

/-- Row stored first: id 2, same name and birthdate as `dupOlder`. -/
def dupNewer : Contact := ⟨2, 1, "Ann", "Lee", "ann2@example.com", "+103", ⟨1990, 1, 1⟩, ""⟩

/-- Row stored second: id 1, same name and birthdate as `dupNewer`. -/
def dupOlder : Contact := ⟨1, 1, "Ann", "Lee", "ann1@example.com", "+104", ⟨1990, 1, 1⟩, ""⟩

/-- A contact whose June-14 birthdate falls on a Saturday in 2025. -/
def satContact : Contact := ⟨1, 1, "Sam", "Sat", "sam@example.com", "+105", ⟨1992, 6, 14⟩, ""⟩

/-- A contact with a Jan-2 birthdate. -/
def janContact : Contact := ⟨1, 1, "Jan", "New", "jan@example.com", "+106", ⟨1995, 1, 2⟩, ""⟩

/-- A contact with a Dec-20 birthdate. -/
def decOld : Contact := ⟨2, 1, "Dee", "Old", "dee@example.com", "+107", ⟨1995, 12, 20⟩, ""⟩

/-- A contact born on Feb 29 of a leap year. -/
def febContact : Contact := ⟨1, 1, "Feb", "Leap", "feb@example.com", "+108", ⟨2000, 2, 29⟩, ""⟩

/-- A contact named Bob (wildcard filter counterexample). -/
def bobPlain : Contact := ⟨1, 1, "Bob", "Ray", "bob@example.com", "+109", ⟨1990, 1, 1⟩, ""⟩

/-- A contact named Annette (substring filter example). -/
def annNette : Contact := ⟨1, 1, "Annette", "Smith", "annette@example.com", "+110", ⟨1990, 1, 1⟩, ""⟩

/-! Helper lemmas. -/

theorem likeMatch_pct (ps t : List Char) :
    likeMatch ('%' :: ps) t = true ↔ ∃ t2, t2 <:+ t ∧ likeMatch ps t2 = true := by
  simp [likeMatch, List.any_eq_true, List.mem_tails]

theorem likeMatch_lit_pct (s : List Char) (hs : wildcardFreeL s) (t : List Char) :
    likeMatch (s ++ ['%']) t = true ↔ ∃ q, t.map lchar = s.map lchar ++ q := by
  induction s generalizing t with
  | nil =>
    rw [List.nil_append, likeMatch_pct]
    constructor
    · intro _
      exact ⟨t.map lchar, rfl⟩
    · intro _
      exact ⟨[], List.nil_suffix, rfl⟩
  | cons a s ih =>
    have ha1 : a ≠ '%' := fun h => hs.1 (h ▸ List.mem_cons_self a s)
    have ha2 : a ≠ '_' := fun h => hs.2 (h ▸ List.mem_cons_self a s)
    have hs' : wildcardFreeL s :=
      ⟨fun h => hs.1 (List.mem_cons_of_mem a h), fun h => hs.2 (List.mem_cons_of_mem a h)⟩
    cases t with
    | nil => simp [likeMatch, ha1, ha2]
    | cons c ts =>
      rw [List.cons_append]
      simp only [likeMatch, if_neg ha1, if_neg ha2, Bool.and_eq_true, decide_eq_true_iff,
        ih hs', List.map_cons]
      constructor
      · rintro ⟨h1, q, h2⟩
        exact ⟨q, by rw [h1, h2, List.cons_append]⟩
      · rintro ⟨q, h⟩
        rw [List.cons_append] at h
        injection h with h1 h2
        exact ⟨h1.symm, q, h2⟩

theorem likeMatch_sub (s : List Char) (hs : wildcardFreeL s) (t : List Char) :
    likeMatch ('%' :: (s ++ ['%'])) t = true ↔
      ∃ p q, t.map lchar = p ++ s.map lchar ++ q := by
  rw [likeMatch_pct]
  constructor
  · rintro ⟨t2, ⟨u, rfl⟩, h⟩
    obtain ⟨q, hq⟩ := (likeMatch_lit_pct s hs t2).mp h
    exact ⟨u.map lchar, q, by rw [List.map_append, hq, List.append_assoc]⟩
  · rintro ⟨p, q, hpq⟩
    refine ⟨t.drop p.length, List.drop_suffix _ _, ?_⟩
    rw [likeMatch_lit_pct s hs]
    refine ⟨q, ?_⟩
    rw [List.map_drop, hpq, List.append_assoc, List.drop_left]

theorem string_pct_wrap_data (s : String) :
    ("%" ++ s ++ "%").data = '%' :: (s.data ++ ['%']) := by
  cases s
  rfl

theorem fieldLike_iff (filt : Option String) (v : String) (h : optWildcardFree filt) :
    fieldLike filt v = true ↔ specFieldOk filt v := by
  match filt with
  | none => simp [fieldLike, specFieldOk]
  | some s =>
    simp only [fieldLike, specFieldOk]
    by_cases hs : s.data = []
    · simp [hs]
    · rw [if_neg hs, if_neg hs, ilike, string_pct_wrap_data, likeMatch_sub s.data h v.data]
      unfold specContains
      exact Iff.rfl

theorem contactFilterOk_iff (fn ln em : Option String) (c : Contact)
    (h1 : optWildcardFree fn) (h2 : optWildcardFree ln) (h3 : optWildcardFree em) :
    contactFilterOk fn ln em c = true ↔
      specFieldOk fn c.first_name ∧ specFieldOk ln c.last_name ∧ specFieldOk em c.email := by
  unfold contactFilterOk
  rw [Bool.and_eq_true, Bool.and_eq_true, fieldLike_iff fn c.first_name h1,
    fieldLike_iff ln c.last_name h2, fieldLike_iff em c.email h3, and_assoc]

theorem gcub_mem_contact (skip limit : Nat) (store : List Contact) (today : Option PyDate)
    (systemToday : PyDate) (days : Option Int) (move : Option Bool) (c : Contact) :
    (c ∈ (get_contacts_upcoming_birthdays skip limit store today systemToday days move).map
        CelebrationRecord.contact) ↔
      c ∈ gcubContacts skip limit store (resolvedStart today systemToday)
        (addDays (resolvedStart today systemToday) (resolveUpcomingDays days)) := by
  unfold get_contacts_upcoming_birthdays
  rw [((List.perm_insertionSort celebR _).map CelebrationRecord.contact).mem_iff,
    List.map_map]
  simp [Function.comp]

/-! Claim theorems. -/

/-- C1: the query functions perform no owner filtering.  A store holding contacts of
owners 1 and 2 yields both rows from `get_all_contacts` and both rows from
`get_contacts_upcoming_birthdays`, so the returned records do not all belong to any
single requesting owner: owner scoping does not hold on this code. -/
theorem c1_no_owner_scoping :
    (annOwner1 ∈ get_all_contacts 0 50 [annOwner1, bobOwner2] none none none ∧
      bobOwner2 ∈ get_all_contacts 0 50 [annOwner1, bobOwner2] none none none ∧
      annOwner1.owner_id ≠ bobOwner2.owner_id) ∧
    ((∃ r ∈ get_contacts_upcoming_birthdays 0 50 [annOwner1, bobOwner2]
          (some ⟨2025, 6, 10⟩) ⟨2025, 6, 10⟩ none none, r.contact.owner_id = 1) ∧
      (∃ r ∈ get_contacts_upcoming_birthdays 0 50 [annOwner1, bobOwner2]
          (some ⟨2025, 6, 10⟩) ⟨2025, 6, 10⟩ none none, r.contact.owner_id = 2)) := by
  decide

/-- C2: with `skip = 0`, `limit = 1` and two contacts matching a Dec→Jan window,
`get_contacts_upcoming_birthdays` returns both records — the wrap branch applies no
`OFFSET`/`LIMIT` at all, so the result is not the slice `[skip, skip+limit)` of the
sorted candidate set (and the function returns no total count: its result type is
just the record list). -/
theorem c2_wrap_branch_ignores_pagination :
    (get_contacts_upcoming_birthdays 0 1 [decContact1, decContact2]
      (some ⟨2025, 12, 28⟩) ⟨2025, 12, 28⟩ none none).length = 2 := by
  decide

/-- C4 (counterexample): two contacts identical on
(lower(first_name), lower(last_name), birthdate) stored in row order id 2, id 1 are
returned in store order [2, 1]; the output is not ordered with `id` ascending as a
final tiebreak, refuting the claimed four-part ordering key. -/
theorem c4_order_key_counterexample :
    ¬ List.Pairwise (fun a b => keyGacId a ≤ keyGacId b)
      (get_all_contacts 0 50 [dupNewer, dupOlder] none none none) := by
  decide

/-- C4 (amended): `get_all_contacts` output is always ordered by exactly the
three-part key (lower(first_name), lower(last_name), birthdate) ascending — the
code's `ORDER BY` has no `id` tiebreak, so ties beyond this key keep the store's
row order and the ordering is not total on full-key duplicates. -/
theorem c4_three_part_order (skip limit : Nat) (store : List Contact)
    (fn ln em : Option String) :
    List.Pairwise (fun a b => keyGac a ≤ keyGac b)
      (get_all_contacts skip limit store fn ln em) := by
  unfold get_all_contacts
  have hs : List.Sorted gacR ((store.filter (contactFilterOk fn ln em)).insertionSort gacR) :=
    List.sorted_insertionSort gacR _
  exact List.Pairwise.sublist ((List.take_sublist _ _).trans (List.drop_sublist _ _)) hs

/-- C9: `PaginationFilterSchema` rejects every `skip < 0` and every `limit` outside
`[1, 1000]` with a distinguishable validation error (the pure resolver fails before
any store query can be issued), and accepts every in-range pair unchanged. -/
theorem c9_pagination_validation (skip limit : Int) :
    ((skip < 0 ∨ limit < 1 ∨ 1000 < limit) →
      ∃ e, validate_pagination skip limit = Except.error e) ∧
    (0 ≤ skip → 1 ≤ limit → limit ≤ 1000 →
      validate_pagination skip limit = Except.ok ⟨skip, limit⟩) := by
  unfold validate_pagination
  constructor
  · rintro (h | h | h)
    · exact ⟨.skipOutOfRange, by rw [if_pos h]⟩
    · by_cases hsk : skip < 0
      · exact ⟨.skipOutOfRange, by rw [if_pos hsk]⟩
      · exact ⟨.limitOutOfRange, by rw [if_neg hsk, if_pos h]⟩
    · by_cases hsk : skip < 0
      · exact ⟨.skipOutOfRange, by rw [if_pos hsk]⟩
      · exact ⟨.limitOutOfRange, by rw [if_neg hsk, if_neg (by omega), if_pos h]⟩
  · intro h1 h2 h3
    rw [if_neg (by omega), if_neg (by omega), if_neg (by omega)]

/-- C9 (witness): concrete out-of-range parameters are rejected and an in-range
pair is accepted unchanged. -/
theorem c9_pagination_witness :
    (∃ e, validate_pagination (-1) 50 = Except.error e) ∧
    (∃ e, validate_pagination 0 0 = Except.error e) ∧
    (∃ e, validate_pagination 0 1001 = Except.error e) ∧
    validate_pagination 3 50 = Except.ok ⟨3, 50⟩ :=
  ⟨(c9_pagination_validation (-1) 50).1 (Or.inl (by decide)),
    (c9_pagination_validation 0 0).1 (Or.inr (Or.inl (by decide))),
    (c9_pagination_validation 0 1001).1 (Or.inr (Or.inr (by decide))),
    (c9_pagination_validation 3 50).2 (by decide) (by decide) (by decide)⟩

/-- C10: Python `or` substitutes the configured defaults for falsy arguments:
calling `get_contacts_upcoming_birthdays` with `upcoming_days = 0` behaves exactly
as with `upcoming_days = 7` (the default), so a zero-length window cannot be
requested through this parameter, and an explicit `move_feb29_to_feb_28 = False`
behaves exactly as the omitted argument (the configured default `True`). -/
theorem c10_falsy_default_substitution (skip limit : Nat) (store : List Contact)
    (today : Option PyDate) (systemToday : PyDate) (days : Option Int)
    (move : Option Bool) :
    get_contacts_upcoming_birthdays skip limit store today systemToday (some 0) move =
      get_contacts_upcoming_birthdays skip limit store today systemToday (some 7) move ∧
    get_contacts_upcoming_birthdays skip limit store today systemToday days (some false) =
      get_contacts_upcoming_birthdays skip limit store today systemToday days none :=
  ⟨rfl, rfl⟩

/-- C6 (counterexample): the claim fails on two counts.  For the non-leap
reference year 2026, Feb 28 falls on a Saturday, so even with policy `true` the
computed celebration date is Mar 2 (the following Monday), not Feb 28.  And at the
engine entry point an explicit `False` policy argument is overridden by the
configured default through Python `or`: a Feb-29 birthdate queried with
`move_feb29_to_feb_28 = False` in non-leap 2023 still gets Feb 28, never Mar 1. -/
theorem c6_feb29_policy_counterexample :
    calc_celebration_date ⟨2000, 2, 29⟩ 2026 true ≠ ⟨2026, 2, 28⟩ ∧
    calc_celebration_date ⟨2000, 2, 29⟩ 2026 true = ⟨2026, 3, 2⟩ ∧
    isLeap 2026 = false ∧
    (get_contacts_upcoming_birthdays 0 50 [febContact] (some ⟨2023, 2, 22⟩)
        ⟨2023, 2, 22⟩ none (some false)).map CelebrationRecord.celebration_date =
      [⟨2023, 2, 28⟩] := by
  decide

/-- C6 (amended): for every Feb-29 birthdate and non-leap reference year, the
calculator's pre-shift candidate is Feb 28 under policy `true` and Mar 1 under
policy `false`; the returned celebration date is that candidate weekend-shifted, so
it equals Feb 28 (resp. Mar 1) exactly when that day is a weekday.  At the
`get_contacts_upcoming_birthdays` entry point an explicitly-`false` policy argument
is replaced by the configured default, behaving as if omitted. -/
theorem c6_feb29_policy_amended (bd : PyDate) (y : Int)
    (hm : bd.month = 2) (hd : bd.day = 29) (hy : isLeap y = false) :
    calc_celebration_date bd y true = weekendShift ⟨y, 2, 28⟩ ∧
    calc_celebration_date bd y false = weekendShift ⟨y, 3, 1⟩ ∧
    (weekday ⟨y, 2, 28⟩ ≠ 5 → weekday ⟨y, 2, 28⟩ ≠ 6 →
      calc_celebration_date bd y true = ⟨y, 2, 28⟩) ∧
    (weekday ⟨y, 3, 1⟩ ≠ 5 → weekday ⟨y, 3, 1⟩ ≠ 6 →
      calc_celebration_date bd y false = ⟨y, 3, 1⟩) ∧
    (∀ (skip limit : Nat) (store : List Contact) (today : Option PyDate)
      (systemToday : PyDate) (days : Option Int),
      get_contacts_upcoming_birthdays skip limit store today systemToday days
          (some false) =
        get_contacts_upcoming_birthdays skip limit store today systemToday days none) := by
  have hct : celebrationCandidate bd y true = ⟨y, 2, 28⟩ := by
    unfold celebrationCandidate
    rw [if_pos ⟨hm, hd, hy⟩]
    rfl
  have hcf : celebrationCandidate bd y false = ⟨y, 3, 1⟩ := by
    unfold celebrationCandidate
    rw [if_pos ⟨hm, hd, hy⟩]
    rfl
  refine ⟨by rw [calc_celebration_date, hct], by rw [calc_celebration_date, hcf],
    ?_, ?_, fun _ _ _ _ _ _ => rfl⟩
  · intro h5 h6
    rw [calc_celebration_date, hct, weekendShift, if_neg h5, if_neg h6]
  · intro h5 h6
    rw [calc_celebration_date, hcf, weekendShift, if_neg h5, if_neg h6]

/-- C6 (witness): in the non-leap year 2023 both Feb 28 (a Tuesday) and Mar 1
(a Wednesday) are weekdays, so the amended statement yields Feb 28 under policy
`true` and Mar 1 under policy `false` for a Feb-29 birthdate. -/
theorem c6_feb29_policy_witness :
    isLeap 2023 = false ∧
    calc_celebration_date ⟨2000, 2, 29⟩ 2023 true = ⟨2023, 2, 28⟩ ∧
    calc_celebration_date ⟨2000, 2, 29⟩ 2023 false = ⟨2023, 3, 1⟩ :=
  ⟨by decide,
    (c6_feb29_policy_amended ⟨2000, 2, 29⟩ 2023 rfl rfl (by decide)).2.2.1
      (by decide) (by decide),
    (c6_feb29_policy_amended ⟨2000, 2, 29⟩ 2023 rfl rfl (by decide)).2.2.2.1
      (by decide) (by decide)⟩

/-- C8: every record produced by `get_contacts_upcoming_birthdays` carries a
celebration date computed with reference year `start_date.year` — the year of the
resolved `today` — unconditionally, also for candidates in the wrapped next month. -/
theorem c8_reference_year_literal (skip limit : Nat) (store : List Contact)
    (today : Option PyDate) (systemToday : PyDate) (days : Option Int)
    (move : Option Bool) (r : CelebrationRecord)
    (hr : r ∈ get_contacts_upcoming_birthdays skip limit store today systemToday days move) :
    r.celebration_date =
      calc_celebration_date r.contact.birthdate (resolvedStart today systemToday).year
        (resolveMoveFeb29 move) := by
  unfold get_contacts_upcoming_birthdays at hr
  rw [List.mem_insertionSort, List.mem_map] at hr
  obtain ⟨c, -, rfl⟩ := hr
  rfl

/-- C8 (witness): a Jan-2 birthdate queried on Dec 28, 2025 (window wrapping into
January 2026) gets celebration date Jan 2, 2025 — computed in `today.year` 2025,
not in the window end's year 2026. -/
theorem c8_reference_year_witness :
    (⟨janContact, ⟨2025, 1, 2⟩⟩ : CelebrationRecord) ∈
      get_contacts_upcoming_birthdays 0 50 [janContact] (some ⟨2025, 12, 28⟩)
        ⟨2025, 12, 28⟩ none none ∧
    (⟨janContact, ⟨2025, 1, 2⟩⟩ : CelebrationRecord).celebration_date =
      calc_celebration_date janContact.birthdate
        (resolvedStart (some ⟨2025, 12, 28⟩) ⟨2025, 12, 28⟩).year (resolveMoveFeb29 none) ∧
    (⟨janContact, ⟨2025, 1, 2⟩⟩ : CelebrationRecord).celebration_date.year = 2025 ∧
    (addDays (resolvedStart (some ⟨2025, 12, 28⟩) ⟨2025, 12, 28⟩)
      (resolveUpcomingDays none)).year = 2026 :=
  ⟨by decide,
    c8_reference_year_literal 0 50 [janContact] (some ⟨2025, 12, 28⟩) ⟨2025, 12, 28⟩
      none none ⟨janContact, ⟨2025, 1, 2⟩⟩ (by decide),
    by decide, by decide⟩

/-- C3: membership in the upcoming-birthdays result is decided by the raw
birthdate's (month, day) window predicate alone — with pagination trivialized
(skip 0 and a limit covering the store), a contact is returned exactly when it is
stored and its birthdate satisfies `inUpcomingWindow`; the shifted
`celebration_date` plays no part in membership. -/
theorem c3_membership_by_raw_birthdate (skip limit : Nat) (store : List Contact)
    (today : Option PyDate) (systemToday : PyDate) (days : Option Int)
    (move : Option Bool) (c : Contact)
    (hskip : skip = 0) (hlimit : store.length ≤ limit) :
    (c ∈ (get_contacts_upcoming_birthdays skip limit store today systemToday days
        move).map CelebrationRecord.contact) ↔
      c ∈ store ∧ inUpcomingWindow (resolvedStart today systemToday)
        (addDays (resolvedStart today systemToday) (resolveUpcomingDays days))
        c.birthdate := by
  subst hskip
  rw [gcub_mem_contact]
  unfold gcubContacts inUpcomingWindow
  by_cases hm : (addDays (resolvedStart today systemToday)
      (resolveUpcomingDays days)).month = (resolvedStart today systemToday).month
  · rw [if_pos hm, List.drop_zero,
      List.take_of_length_le (le_trans (le_of_eq (List.perm_insertionSort ubR _).length_eq)
        (le_trans (List.length_filter_le _ _) hlimit)),
      List.mem_insertionSort, List.mem_filter, decide_eq_true_iff]
    constructor
    · rintro ⟨hc, hp⟩
      exact ⟨hc, Or.inl ⟨hm, hp⟩⟩
    · rintro ⟨hc, hw | hw⟩
      · exact ⟨hc, hw.2⟩
      · exact absurd hm hw.1
  · rw [if_neg hm, List.mem_filter, decide_eq_true_iff]
    constructor
    · rintro ⟨hc, hp⟩
      exact ⟨hc, Or.inr ⟨hm, hp⟩⟩
    · rintro ⟨hc, hw | hw⟩
      · exact absurd hw.1 hm
      · exact ⟨hc, hw.2⟩

/-- C3 (witness): on June 7, 2025 with the default 7-day window, a contact whose
birthdate month/day is June 14 — exactly `today + 7`, a Saturday — is included,
and its celebration date June 16 (the following Monday) lies beyond the window end
June 14. -/
theorem c3_membership_witness :
    (satContact ∈ (get_contacts_upcoming_birthdays 0 50 [satContact]
        (some ⟨2025, 6, 7⟩) ⟨2025, 6, 7⟩ none none).map CelebrationRecord.contact) ∧
    addDays (resolvedStart (some ⟨2025, 6, 7⟩) ⟨2025, 6, 7⟩) (resolveUpcomingDays none) =
      ⟨2025, 6, 14⟩ ∧
    weekday ⟨2025, 6, 14⟩ = 5 ∧
    (get_contacts_upcoming_birthdays 0 50 [satContact] (some ⟨2025, 6, 7⟩)
        ⟨2025, 6, 7⟩ none none).map CelebrationRecord.celebration_date =
      [⟨2025, 6, 16⟩] :=
  ⟨(c3_membership_by_raw_birthdate 0 50 [satContact] (some ⟨2025, 6, 7⟩) ⟨2025, 6, 7⟩
      none none satContact rfl (by decide)).mpr ⟨by decide, by decide⟩,
    by decide, by decide, by decide⟩

/-- C5: whenever the computed window end lands in a different month number than
the start, the returned contact set is exactly the union of the two month buckets:
birthdates in the start month from its day onward, and birthdates in the end month
up to its day — for every skip and limit, since the wrap branch applies no
pagination. -/
theorem c5_wraparound_union (skip limit : Nat) (store : List Contact)
    (today : Option PyDate) (systemToday : PyDate) (days : Option Int)
    (move : Option Bool) (c : Contact)
    (hwrap : (addDays (resolvedStart today systemToday)
        (resolveUpcomingDays days)).month ≠ (resolvedStart today systemToday).month) :
    (c ∈ (get_contacts_upcoming_birthdays skip limit store today systemToday days
        move).map CelebrationRecord.contact) ↔
      c ∈ store ∧
        ((c.birthdate.month = (resolvedStart today systemToday).month ∧
            (resolvedStart today systemToday).day ≤ c.birthdate.day) ∨
          (c.birthdate.month = (addDays (resolvedStart today systemToday)
              (resolveUpcomingDays days)).month ∧
            c.birthdate.day ≤ (addDays (resolvedStart today systemToday)
              (resolveUpcomingDays days)).day)) := by
  rw [gcub_mem_contact]
  unfold gcubContacts
  rw [if_neg hwrap, List.mem_filter, decide_eq_true_iff]

/-- C5 (witness): with today = Dec 28, 2025 and a 7-day window (end Jan 4, 2026),
a Jan-2 birthdate is included and a Dec-20 birthdate is excluded. -/
theorem c5_wraparound_witness :
    addDays (resolvedStart (some ⟨2025, 12, 28⟩) ⟨2025, 12, 28⟩)
      (resolveUpcomingDays (some 7)) = ⟨2026, 1, 4⟩ ∧
    (janContact ∈ (get_contacts_upcoming_birthdays 0 50 [janContact, decOld]
        (some ⟨2025, 12, 28⟩) ⟨2025, 12, 28⟩ (some 7) none).map
        CelebrationRecord.contact) ∧
    ¬ (decOld ∈ (get_contacts_upcoming_birthdays 0 50 [janContact, decOld]
        (some ⟨2025, 12, 28⟩) ⟨2025, 12, 28⟩ (some 7) none).map
        CelebrationRecord.contact) :=
  ⟨by decide,
    (c5_wraparound_union 0 50 [janContact, decOld] (some ⟨2025, 12, 28⟩) ⟨2025, 12, 28⟩
      (some 7) none janContact (by decide)).mpr ⟨by decide, by decide⟩,
    fun h => absurd ((c5_wraparound_union 0 50 [janContact, decOld]
      (some ⟨2025, 12, 28⟩) ⟨2025, 12, 28⟩ (some 7) none decOld (by decide)).mp h)
      (by decide)⟩

/-- C7 (counterexample): the filter string is interpolated unescaped into an
`ILIKE` pattern, so SQL wildcards in it are active.  A contact named "Bob" is
returned for the filter string "%" (pattern `%%%` matches everything), although
"bob" does not contain the character '%': inclusion is not equivalent to
case-insensitive substring containment for every filter string. -/
theorem c7_wildcard_counterexample :
    bobPlain ∈ get_all_contacts 0 50 [bobPlain] (some "%") none none ∧
    ¬ specContains "%" bobPlain.first_name := by
  constructor
  · decide
  · rintro ⟨p, q, h⟩
    have hpc : List.map lchar "%".data = ['%'] := by decide
    rw [hpc] at h
    have hmem : ('%' : Char) ∈ List.map lchar "Bob".data := by
      rw [show bobPlain.first_name = "Bob" from rfl] at h
      rw [h]
      simp
    exact absurd hmem (by decide)

/-- C7 (amended): for filter strings free of SQL wildcard characters ('%', '_'),
and with pagination trivialized (skip 0, limit covering the store),
`get_all_contacts` includes a contact exactly when it is stored and, for every set
filter field, the field value contains the filter string ignoring case; absent or
empty filter fields impose no constraint. -/
theorem c7_substring_filter_amended (skip limit : Nat) (store : List Contact)
    (fn ln em : Option String) (c : Contact)
    (hskip : skip = 0) (hlimit : store.length ≤ limit)
    (h1 : optWildcardFree fn) (h2 : optWildcardFree ln) (h3 : optWildcardFree em) :
    c ∈ get_all_contacts skip limit store fn ln em ↔
      c ∈ store ∧ specFieldOk fn c.first_name ∧ specFieldOk ln c.last_name ∧
        specFieldOk em c.email := by
  subst hskip
  unfold get_all_contacts
  rw [List.drop_zero,
    List.take_of_length_le (le_trans (le_of_eq (List.perm_insertionSort gacR _).length_eq)
      (le_trans (List.length_filter_le _ _) hlimit)),
    List.mem_insertionSort, List.mem_filter]
  exact and_congr_right fun _ => contactFilterOk_iff fn ln em c h1 h2 h3

/-- C7 (witness): the wildcard-free filter string "nn" matches "Annette"
case-insensitively as a substring, so the contact is returned. -/
theorem c7_substring_filter_witness :
    annNette ∈ get_all_contacts 0 50 [annNette] (some "nn") none none :=
  (c7_substring_filter_amended 0 50 [annNette] (some "nn") none none annNette rfl
      (by decide) ⟨by decide, by decide⟩ trivial trivial).mpr
    ⟨by decide,
      by
        rw [show specFieldOk (some "nn") annNette.first_name =
            if ("nn").data = [] then True else specContains "nn" annNette.first_name
          from rfl]
        rw [if_neg (by decide)]
        exact ⟨['a'], ['e', 't', 't', 'e'], by decide⟩,
      trivial, trivial⟩
